import Mathlib

/-!
Verification of the fault-tolerant native-data acquisition layer of the
react-native-device library: guarded call primitives (withTimeout, safeAccess,
withTimeoutAll), the device/application snapshot builders, the identifier
resolver, the friendly-identifier generator, and the pure classification
engine (DeviceUtils).

Modelling conventions:
* JS numbers are modelled as rationals (ℚ); all arithmetic in the relevant
  code paths is exact binary division, well inside double precision.
* JS nullable values (`T | null | undefined`) are `Option T`; JS string
  falsiness (`""` falsy) and number falsiness (`0` falsy) are modelled
  explicitly where the source relies on them.
* An asynchronous provider call is a behaviour `PBeh α`: it resolves at an
  integer time with a value, rejects (or throws synchronously) at a time, or
  never settles.  A synchronous native property access is a behaviour
  `SBeh α`: it returns a value, returns null/undefined, or throws.
* The whole set of provider behaviours forms one environment record `Env`;
  every service operation is a total function of the environment, which is
  exactly the "never propagates an exception" contract of the source's
  try/catch structure.
-/

/-- Runtime platform tag (`Platform.OS` in react-native). -/
inductive Platform where
  | ios
  | android
  | web
deriving DecidableEq, Repr

/-- Behaviour of a synchronous native property access: it may return a value,
return null/undefined (`val none`), or throw. -/
inductive SBeh (α : Type) where
  | val (v : Option α)
  | throws
deriving DecidableEq, Repr

/-- Behaviour of a zero-argument asynchronous operation: it may resolve at
time `t` with a value, reject (or throw synchronously) at time `t`, or never
settle. -/
inductive PBeh (α : Type) where
  | resolves (t : Nat) (v : α)
  | rejects (t : Nat)
  | hangs
deriving DecidableEq, Repr

/-- `withTimeout(operation, timeoutMs)` from nativeModuleUtils.ts: races the
operation against a `setTimeout` rejection and catches every failure to
`null`.  The operation's value survives only if it resolves strictly before
the timer fires. -/
def withTimeout {α : Type} (op : PBeh α) (timeoutMs : Nat) : Option α :=
  match op with
  | .resolves t v => if t < timeoutMs then some v else none
  | .rejects _ => none
  | .hangs => none

/-- Completion time of the `withTimeout` call itself (the `try`/`race`/`catch`
settles when the first of the operation and the timer settles, and at the
latest when the timer fires). -/
def withTimeoutRT {α : Type} (op : PBeh α) (timeoutMs : Nat) : Nat :=
  match op with
  | .resolves t _ => min t timeoutMs
  | .rejects t => min t timeoutMs
  | .hangs => timeoutMs

/-- `safeAccess(accessor, fallback)` instantiated at a nullable type with
fallback `null`: returns the accessor's value, substituting `null` when the
accessor throws (the `value ?? null` coalescing is the identity on
`Option`). -/
def safeAccessN {α : Type} (b : SBeh α) : Option α :=
  match b with
  | .val v => v
  | .throws => none

/-- `safeAccess(accessor, fallback)` instantiated with a non-null fallback:
returns the accessor's value, substituting `fallback` when the accessor
throws or returns null/undefined (`value ?? fallback`). -/
def safeAccessD {α : Type} (b : SBeh α) (fallback : α) : α :=
  match b with
  | .val (some v) => v
  | .val none => fallback
  | .throws => fallback

/-- Settling time of `op().catch(() => null)` inside `withTimeoutAll`:
resolution and rejection both settle the caught promise; a hanging operation
never settles. -/
def pbehSettleTime {α : Type} (op : PBeh α) : Option Nat :=
  match op with
  | .resolves t _ => some t
  | .rejects t => some t
  | .hangs => none

/-- Value of `op().catch(() => null)`: the operation's result, or `null` for
an operation that throws/rejects. -/
def pbehCaught {α : Type} (op : PBeh α) : Option α :=
  match op with
  | .resolves _ v => some v
  | .rejects _ => none
  | .hangs => none

/-- Completion time of `Promise.all` over the individually caught operations:
the batch settles when the last operation settles, and never if any
operation hangs. -/
def batchTime {α : Type} : List (PBeh α) → Option Nat
  | [] => some 0
  | op :: rest =>
    match pbehSettleTime op, batchTime rest with
    | some t, some u => some (max t u)
    | _, _ => none

/-- `withTimeoutAll(operations, timeoutMs)` from nativeModuleUtils.ts: each
operation is independently caught to `null`, the whole batch is raced against
one shared timer, and on overall timeout every entry becomes `null`. -/
def withTimeoutAll {α : Type} (ops : List (PBeh α)) (timeoutMs : Nat) :
    List (Option α) :=
  match batchTime ops with
  | some T => if T < timeoutMs then ops.map pbehCaught else ops.map (fun _ => none)
  | none => ops.map (fun _ => none)

/-- JS truthiness of a nullable string: `null`, `undefined` and `""` are
falsy. -/
def strTruthy (o : Option String) : Bool :=
  match o with
  | some s => decide (s ≠ "")
  | none => false

/-- JS truthiness of a nullable number: `null`, `undefined` and `0` are
falsy. -/
def qTruthy (o : Option ℚ) : Bool :=
  match o with
  | some x => decide (x ≠ 0)
  | none => false

/-- `x || null` on a nullable string: collapses the empty string to null. -/
def strFalsyToNull (o : Option String) : Option String :=
  match o with
  | some s => if s = "" then none else some s
  | none => none

/-- `a || b` on strings (`a` kept when truthy, else `b`). -/
def strOrDefault (a b : String) : String :=
  if a = "" then b else a

/-- `a || b` where `a` is nullable and `b` a fallback chain. -/
def jsOrS (a b : Option String) : Option String :=
  match a with
  | some s => if s = "" then b else some s
  | none => b

/-- Device information snapshot (domain/entities/Device.ts `DeviceInfo`).
JS numbers are rationals, nullable fields are `Option`. -/
structure DeviceInfo where
  brand : Option String
  manufacturer : Option String
  modelName : Option String
  modelId : Option String
  deviceName : Option String
  deviceYearClass : Option ℚ
  deviceType : Option ℚ
  isDevice : Bool
  osName : Option String
  osVersion : Option String
  osBuildId : Option String
  platformApiLevel : Option ℚ
  totalMemory : Option ℚ
  platform : Platform
deriving DecidableEq, Repr

/-- Application information snapshot (domain/entities/Device.ts
`ApplicationInfo`); timestamps are epoch numbers. -/
structure ApplicationInfo where
  applicationName : String
  applicationId : String
  nativeApplicationVersion : Option String
  nativeBuildVersion : Option String
  installTime : Option ℚ
  lastUpdateTime : Option ℚ
  androidId : Option String
  iosIdForVendor : Option String
deriving DecidableEq, Repr

/-- Combined device and app info (`SystemInfo`), with the facade's optional
caller-supplied user id. -/
structure SystemInfo where
  device : DeviceInfo
  application : ApplicationInfo
  timestamp : ℚ
  userId : Option String
deriving DecidableEq, Repr

/-- Result of `DeviceService.getDeviceCapabilities`. -/
structure DeviceCapabilities where
  isDevice : Bool
  isTablet : Bool
  hasNotch : Bool
  totalMemoryGB : Option ℚ
deriving DecidableEq, Repr

/-- Device performance tier (`'low' | 'mid' | 'high'`). -/
inductive Tier where
  | low
  | mid
  | high
deriving DecidableEq, Repr

/-- Result of `DeviceUtils.meetsMinimumRequirements`. -/
structure RequirementCheck where
  meets : Bool
  reasons : List String
deriving DecidableEq, Repr

/-- `DEVICE_CONSTANTS.DEVICE_TYPE.TABLET` (expo-device enum value). -/
def DEVICE_TYPE_TABLET : ℚ := 2

/-- `1024 * 1024 * 1024` bytes, the binary gigabyte used throughout
DeviceUtils. -/
def BYTES_PER_GB : ℚ := 1024 * 1024 * 1024

/-- `1024 * 1024` bytes, the binary megabyte. -/
def BYTES_PER_MB : ℚ := 1024 * 1024

/-- `toFixed(2)` on a nonnegative number: round half up to two decimals and
render `intPart.fracPart` with a two-digit fraction. -/
def toFixed2Aux (q : ℚ) : String :=
  let c : ℤ := ⌊q * 100 + 1 / 2⌋
  let ip : ℤ := c / 100
  let fp : ℤ := c % 100
  toString ip ++ "." ++ (if fp < 10 then "0" ++ toString fp else toString fp)

/-- JS `Number.prototype.toFixed(2)`; negative numbers render as the sign
followed by the rendering of the absolute value. -/
def toFixed2 (q : ℚ) : String :=
  if q < 0 then "-" ++ toFixed2Aux (-q) else toFixed2Aux q

/-- JS template-literal rendering `${n}` of a number.  Integral values render
exactly as in JS; non-integral rationals use an abstract `num/den` rendering
(no code path checked by a claim interpolates a non-integral value without
`toFixed`). -/
def jsNumToString (q : ℚ) : String :=
  if q.den = 1 then toString q.num
  else toString q.num ++ "/" ++ toString q.den

/-- `DeviceUtils.isTablet`. -/
def DeviceUtils.isTablet (deviceType : Option ℚ) : Bool :=
  decide (deviceType = some DEVICE_TYPE_TABLET)

/-- `DeviceUtils.formatMemorySize`: `if (!bytes) return 'Unknown'`, then GB
for a quotient of at least 1, else MB, both to two decimals. -/
def DeviceUtils.formatMemorySize (bytes : Option ℚ) : String :=
  if ¬ qTruthy bytes then "Unknown"
  else
    let b := bytes.getD 0
    let gb := b / BYTES_PER_GB
    if 1 ≤ gb then toFixed2 gb ++ " GB"
    else toFixed2 (b / BYTES_PER_MB) ++ " MB"

/-- The reason string pushed when the snapshot is not a physical device. -/
def simulatorReason : String := "Running on simulator/emulator"

/-- The reason string pushed for insufficient memory. -/
def memoryReason (memoryGB minMemoryGB : ℚ) : String :=
  "Insufficient memory: " ++ toFixed2 memoryGB ++ "GB (minimum: " ++
    jsNumToString minMemoryGB ++ "GB)"

/-- The reason string pushed for a device year class before 2018. -/
def yearReason (deviceYearClass : ℚ) : String :=
  "Device too old: " ++ jsNumToString deviceYearClass ++ " (minimum: 2018)"

/-- The simulator check of `meetsMinimumRequirements`
(`if (!info.isDevice) reasons.push(...)`). -/
def DeviceUtils.simulatorBlock (info : DeviceInfo) : List String :=
  if info.isDevice then [] else [simulatorReason]

/-- The memory check of `meetsMinimumRequirements`: only evaluated when
`info.totalMemory` is truthy (non-null and nonzero). -/
def DeviceUtils.memoryBlock (info : DeviceInfo) (minMemoryGB : ℚ) : List String :=
  if qTruthy info.totalMemory then
    let memoryGB := info.totalMemory.getD 0 / BYTES_PER_GB
    if memoryGB < minMemoryGB then [memoryReason memoryGB minMemoryGB] else []
  else []

/-- The year-class check of `meetsMinimumRequirements`
(`if (info.deviceYearClass && info.deviceYearClass < 2018)`). -/
def DeviceUtils.yearBlock (info : DeviceInfo) : List String :=
  if qTruthy info.deviceYearClass ∧ info.deviceYearClass.getD 0 < 2018 then
    [yearReason (info.deviceYearClass.getD 0)]
  else []

/-- `DeviceUtils.meetsMinimumRequirements(info, minMemoryGB = 1)`: the three
checks push their reasons in source order and
`meets := reasons.length === 0`. -/
def DeviceUtils.meetsMinimumRequirements (info : DeviceInfo)
    (minMemoryGB : ℚ) : RequirementCheck :=
  let reasons := DeviceUtils.simulatorBlock info ++
    DeviceUtils.memoryBlock info minMemoryGB ++ DeviceUtils.yearBlock info
  { meets := reasons.length == 0, reasons }

/-- `DeviceUtils.getDeviceTier`: truthy year class buckets by year, else
truthy memory buckets by binary gigabytes, else `'mid'`. -/
def DeviceUtils.getDeviceTier (info : DeviceInfo) : Tier :=
  if qTruthy info.deviceYearClass then
    let y := info.deviceYearClass.getD 0
    if 2022 ≤ y then .high
    else if 2019 ≤ y then .mid
    else .low
  else if qTruthy info.totalMemory then
    let memoryGB := info.totalMemory.getD 0 / BYTES_PER_GB
    if 6 ≤ memoryGB then .high
    else if 3 ≤ memoryGB then .mid
    else .low
  else .mid

/-- JS `String.prototype.toUpperCase` (ASCII, as exercised by the code). -/
def toUpperCase (s : String) : String := String.mk (s.toList.map Char.toUpper)

/-- JS `String.prototype.toLowerCase` (ASCII, as exercised by the code). -/
def toLowerCase (s : String) : String := String.mk (s.toList.map Char.toLower)

/-- Helper for `includes`: does `p` occur as a contiguous run of `l`? -/
def includesAux (p : List Char) : List Char → Bool
  | [] => p.isEmpty
  | c :: rest => List.isPrefixOf p (c :: rest) || includesAux p rest

/-- JS `s.includes(pat)`. -/
def includesSub (s pat : String) : Bool := includesAux pat.toList s.toList

/-- stringUtils.ts `cleanModelName`: falsy input gives `"Device"`, otherwise
every character outside `[a-zA-Z0-9]` is removed. -/
def cleanModelName (model : Option String) : String :=
  match model with
  | some m => if m = "" then "Device" else String.mk (m.toList.filter Char.isAlphanum)
  | none => "Device"

/-- stringUtils.ts `extractIdPart`: falsy device id falls back to the random
id (modelled as the explicitly passed `randomId` draw), otherwise the last
`len` characters of the id, uppercased. -/
def extractIdPart (deviceId : Option String) (len : Nat) (randomId : String) :
    String :=
  match deviceId with
  | some id => if id = "" then randomId else toUpperCase (id.drop (id.length - len))
  | none => randomId

/-- stringUtils.ts `getPlatformPrefix`: the fixed platform-to-label mapping
used by the friendly-id fallback. -/
def platformDisplayTag (p : Platform) : String :=
  match p with
  | .ios => "iOS"
  | .android => "Android"
  | .web => "Device"

/-- One behaviour of every external provider access the services perform,
plus the runtime platform, the clock, and the random token draw.  Every
service operation is a total function of this record; totality over all
behaviours (throwing accessors, rejecting or hanging promises) is the
embedding of the no-crash contract. -/
structure Env where
  platformOS : Platform
  getMaxMemoryAsync : PBeh ℚ
  brand : SBeh String
  manufacturer : SBeh String
  modelName : SBeh String
  modelId : SBeh String
  deviceName : SBeh String
  deviceYearClass : SBeh ℚ
  deviceType : SBeh ℚ
  isDevice : SBeh Bool
  osName : SBeh String
  osVersion : SBeh String
  osBuildId : SBeh String
  platformApiLevel : SBeh ℚ
  applicationName : SBeh String
  applicationId : SBeh String
  nativeApplicationVersion : SBeh String
  nativeBuildVersion : SBeh String
  getInstallationTimeAsync : PBeh ℚ
  getLastUpdateTimeAsync : PBeh ℚ
  getAndroidId : PBeh String
  getIosIdForVendorAsync : PBeh String
  randomToken : String
  now : ℚ
deriving DecidableEq, Repr

/-- `DeviceInfoService.getMinimalDeviceInfo`: the all-defaults snapshot
tagged with the current platform. -/
def DeviceInfoService.getMinimalDeviceInfo (p : Platform) : DeviceInfo :=
  { brand := none, manufacturer := none, modelName := none, modelId := none,
    deviceName := none, deviceYearClass := none, deviceType := none,
    isDevice := false, osName := none, osVersion := none, osBuildId := none,
    platformApiLevel := none, totalMemory := none, platform := p }

/-- `DeviceInfoService.getDeviceInfo` (the guarded variant): memory through
`withTimeout(…, 1000)`, every property through `safeAccess` with a `null`
(or `false`) fallback.  The outer `try` body cannot reject because every
access is guarded, so the `catch` branch to `getMinimalDeviceInfo` is
unreachable and the function is total. -/
def DeviceInfoService.getDeviceInfo (env : Env) : DeviceInfo :=
  { brand := safeAccessN env.brand
    manufacturer := safeAccessN env.manufacturer
    modelName := safeAccessN env.modelName
    modelId := safeAccessN env.modelId
    deviceName := safeAccessN env.deviceName
    deviceYearClass := safeAccessN env.deviceYearClass
    deviceType := safeAccessN env.deviceType
    isDevice := safeAccessD env.isDevice false
    osName := safeAccessN env.osName
    osVersion := safeAccessN env.osVersion
    osBuildId := safeAccessN env.osBuildId
    platformApiLevel := safeAccessN env.platformApiLevel
    totalMemory := withTimeout env.getMaxMemoryAsync 1000
    platform := env.platformOS }

/-- Completion time of `DeviceInfoService.getDeviceInfo`: the only await is
the guarded memory call; property accesses are synchronous. -/
def DeviceInfoService.completionTime (env : Env) : Nat :=
  withTimeoutRT env.getMaxMemoryAsync 1000

/-- `ApplicationInfoService.getApplicationInfo`: install/update times through
guarded calls, name/id with `'Unknown'` fallback twice (`safeAccess` fallback
and `|| 'Unknown'`), platform-specific identifier only on its platform with
`result || null`. -/
def ApplicationInfoService.getApplicationInfo (env : Env) : ApplicationInfo :=
  { applicationName := strOrDefault (safeAccessD env.applicationName "Unknown") "Unknown"
    applicationId := strOrDefault (safeAccessD env.applicationId "Unknown") "Unknown"
    nativeApplicationVersion := safeAccessN env.nativeApplicationVersion
    nativeBuildVersion := safeAccessN env.nativeBuildVersion
    installTime := withTimeout env.getInstallationTimeAsync 1000
    lastUpdateTime := withTimeout env.getLastUpdateTimeAsync 1000
    androidId :=
      if env.platformOS = .android then
        strFalsyToNull (withTimeout env.getAndroidId 1000)
      else none
    iosIdForVendor :=
      if env.platformOS = .ios then
        strFalsyToNull (withTimeout env.getIosIdForVendorAsync 1000)
      else none }

/-- `DeviceIdService.getDeviceId`: platform dispatch, each branch a guarded
call followed by `result || null`; web returns null unconditionally. -/
def DeviceIdService.getDeviceId (env : Env) : Option String :=
  match env.platformOS with
  | .android => strFalsyToNull (withTimeout env.getAndroidId 1000)
  | .ios => strFalsyToNull (withTimeout env.getIosIdForVendorAsync 1000)
  | .web => none

/-- Completion time of `DeviceIdService.getDeviceId`. -/
def DeviceIdService.completionTime (env : Env) : Nat :=
  match env.platformOS with
  | .android => withTimeoutRT env.getAndroidId 1000
  | .ios => withTimeoutRT env.getIosIdForVendorAsync 1000
  | .web => 0

/-- `DeviceIdService.getOfflineUserId(fallbackId = 'offline_user')`: null on
web; otherwise `offline_` + id when the resolved id is truthy, else the
fallback. -/
def DeviceIdService.getOfflineUserId (env : Env) (fallbackId : String) :
    Option String :=
  if env.platformOS = .web then none
  else
    match DeviceIdService.getDeviceId env with
    | some deviceId =>
      if deviceId = "" then some fallbackId else some ("offline_" ++ deviceId)
    | none => some fallbackId

/-- `DeviceCapabilityService.hasNotch`: false off iOS, else substring checks
on the safely-accessed, lowercased model name. -/
def DeviceCapabilityService.hasNotch (env : Env) : Bool :=
  if env.platformOS ≠ .ios then false
  else
    let modelName :=
      match env.modelName with
      | .val (some s) => strOrDefault (toLowerCase s) ""
      | _ => ""
    includesSub modelName "iphone x" || includesSub modelName "iphone 1" ||
      includesSub modelName "pro"

/-- `DeviceCapabilityService.getDeviceCapabilities`: derived from a fresh
snapshot; `totalMemoryGB` is null when memory is falsy. -/
def DeviceCapabilityService.getDeviceCapabilities (env : Env) :
    DeviceCapabilities :=
  let info := DeviceInfoService.getDeviceInfo env
  { isDevice := info.isDevice
    isTablet := decide (info.deviceType = some DEVICE_TYPE_TABLET)
    hasNotch := DeviceCapabilityService.hasNotch env
    totalMemoryGB :=
      if qTruthy info.totalMemory then some (info.totalMemory.getD 0 / BYTES_PER_GB)
      else none }

/-- `UserFriendlyIdService.generateFallbackId`: platform prefix + random
token. -/
def UserFriendlyIdService.generateFallbackId (env : Env) : String :=
  platformDisplayTag env.platformOS ++ "-" ++ env.randomToken

/-- `UserFriendlyIdService.getUserFriendlyId`: web shortcut, then both
sub-operations through `withTimeoutAll(…, 2000)` (each is itself bounded, so
it is entered as a behaviour that resolves at its completion time with its
value), then the model/id assembly with the platform fallback. -/
def UserFriendlyIdService.getUserFriendlyId (env : Env) : String :=
  if env.platformOS = .web then "WebUser-" ++ env.randomToken
  else
    let results := withTimeoutAll
      [ PBeh.resolves (DeviceInfoService.completionTime env)
          (Sum.inl (DeviceInfoService.getDeviceInfo env)),
        PBeh.resolves (DeviceIdService.completionTime env)
          (Sum.inr (DeviceIdService.getDeviceId env)) ] 2000
    let deviceInfo : Option DeviceInfo :=
      match results.get? 0 with
      | some (some (Sum.inl d)) => some d
      | _ => none
    let deviceId : Option String :=
      match results.get? 1 with
      | some (some (Sum.inr i)) => i
      | _ => none
    match deviceInfo with
    | some di =>
      if strTruthy di.modelName || strTruthy di.deviceName then
        let model := jsOrS di.modelName (jsOrS di.deviceName (some "Device"))
        let cleanModel := cleanModelName model
        let idPart := extractIdPart deviceId 6 env.randomToken
        cleanModel ++ "-" ++ idPart
      else UserFriendlyIdService.generateFallbackId env
    | none => UserFriendlyIdService.generateFallbackId env

/-- Facade `DeviceService.getDeviceInfo`. -/
def DeviceService.getDeviceInfo (env : Env) : DeviceInfo :=
  DeviceInfoService.getDeviceInfo env

/-- Facade `DeviceService.getApplicationInfo`. -/
def DeviceService.getApplicationInfo (env : Env) : ApplicationInfo :=
  ApplicationInfoService.getApplicationInfo env

/-- Facade `DeviceService.getSystemInfo(options?)`: concurrent device + app
snapshots, `Date.now()` timestamp, and the optional user id spread in only
when truthy. -/
def DeviceService.getSystemInfo (env : Env) (userId : Option String) :
    SystemInfo :=
  { device := DeviceInfoService.getDeviceInfo env
    application := ApplicationInfoService.getApplicationInfo env
    timestamp := env.now
    userId := if strTruthy userId then userId else none }

/-- Facade `DeviceService.getDeviceId`. -/
def DeviceService.getDeviceId (env : Env) : Option String :=
  DeviceIdService.getDeviceId env

/-- Facade `DeviceService.getOfflineUserId(fallbackId = 'offline_user')`. -/
def DeviceService.getOfflineUserId (env : Env) (fallbackId : String) :
    Option String :=
  DeviceIdService.getOfflineUserId env fallbackId

/-- The source's default value of the `fallbackId` argument. -/
def offlineUserFallback : String := "offline_user"

/-- Facade `DeviceService.getDeviceCapabilities`. -/
def DeviceService.getDeviceCapabilities (env : Env) : DeviceCapabilities :=
  DeviceCapabilityService.getDeviceCapabilities env

/-- Facade `DeviceService.hasNotch`. -/
def DeviceService.hasNotch (env : Env) : Bool :=
  DeviceCapabilityService.hasNotch env

/-- Facade `DeviceService.getUserFriendlyId`. -/
def DeviceService.getUserFriendlyId (env : Env) : String :=
  UserFriendlyIdService.getUserFriendlyId env

/-- A minimal test snapshot: year class, memory and the physical-device flag
as given, every other field at its default. -/
def mkInfo (y mem : Option ℚ) (isDev : Bool) : DeviceInfo :=
  { brand := none, manufacturer := none, modelName := none, modelId := none,
    deviceName := none, deviceYearClass := y, deviceType := none,
    isDevice := isDev, osName := none, osVersion := none, osBuildId := none,
    platformApiLevel := none, totalMemory := mem, platform := .ios }

/-- A baseline adversarial environment: every provider access throws or
hangs. -/
def baseEnv : Env :=
  { platformOS := .web, getMaxMemoryAsync := .hangs, brand := .throws,
    manufacturer := .throws, modelName := .throws, modelId := .throws,
    deviceName := .throws, deviceYearClass := .throws, deviceType := .throws,
    isDevice := .throws, osName := .throws, osVersion := .throws,
    osBuildId := .throws, platformApiLevel := .throws,
    applicationName := .throws, applicationId := .throws,
    nativeApplicationVersion := .throws, nativeBuildVersion := .throws,
    getInstallationTimeAsync := .hangs, getLastUpdateTimeAsync := .hangs,
    getAndroidId := .hangs, getIosIdForVendorAsync := .hangs,
    randomToken := "R4ND0M", now := 0 }

section HelperLemmas

lemma withTimeoutRT_le {α : Type} (op : PBeh α) (ms : Nat) :
    withTimeoutRT op ms ≤ ms := by
  cases op <;> simp [withTimeoutRT]

lemma strFalsyToNull_ne_empty {o : Option String} {s : String}
    (h : strFalsyToNull o = some s) : s ≠ "" := by
  rcases o with _ | t
  · simp [strFalsyToNull] at h
  · by_cases ht : t = "" <;> simp [strFalsyToNull, ht] at h
    subst h; exact ht

lemma getDeviceId_ne_empty (env : Env) (s : String)
    (h : DeviceIdService.getDeviceId env = some s) : s ≠ "" := by
  unfold DeviceIdService.getDeviceId at h
  rcases hp : env.platformOS <;> rw [hp] at h
  · exact strFalsyToNull_ne_empty h
  · exact strFalsyToNull_ne_empty h
  · exact absurd h (by simp)

lemma deviceIdService_completionTime_le (env : Env) :
    DeviceIdService.completionTime env ≤ 1000 := by
  unfold DeviceIdService.completionTime
  rcases hp : env.platformOS
  · exact withTimeoutRT_le _ _
  · exact withTimeoutRT_le _ _
  · exact Nat.zero_le _

lemma withTimeoutAll_pair {α : Type} (a b : Nat) (x y : α) (ms : Nat)
    (ha : a < ms) (hb : b < ms) :
    withTimeoutAll [PBeh.resolves a x, PBeh.resolves b y] ms =
      [some x, some y] := by
  have hT : batchTime [PBeh.resolves a x, PBeh.resolves b y] =
      some (max a (max b 0)) := rfl
  simp only [withTimeoutAll, hT]
  rw [if_pos (by omega)]
  rfl

lemma append_dash_ne_empty (a b : String) : a ++ "-" ++ b ≠ "" := by
  rcases a with ⟨la⟩
  rcases b with ⟨lb⟩
  intro hc
  have hd : (String.mk la ++ "-" ++ String.mk lb).data = "".data := by rw [hc]
  simp [String.append] at hd

lemma webUser_ne_empty (r : String) : "WebUser-" ++ r ≠ "" := by
  rcases r with ⟨lr⟩
  intro hc
  have hd : ("WebUser-" ++ String.mk lr).data = "".data := by rw [hc]
  simp [String.append] at hd

lemma BYTES_PER_GB_pos : (0 : ℚ) < BYTES_PER_GB := by norm_num [BYTES_PER_GB]

end HelperLemmas

/-- C2: `withTimeout(op, timeoutMs)` returns the operation's value when it
resolves before the timer fires, and `null` when the operation rejects or
throws, resolves only after the bound, or never resolves. -/
theorem C2_withTimeout_contract {α : Type} (ms t : Nat) (v : α) :
    (t < ms → withTimeout (PBeh.resolves t v) ms = some v) ∧
    (ms < t → withTimeout (PBeh.resolves t v) ms = none) ∧
    withTimeout (PBeh.rejects t : PBeh α) ms = none ∧
    withTimeout (PBeh.hangs : PBeh α) ms = none := by
  refine ⟨fun h => ?_, fun h => ?_, rfl, rfl⟩
  · simp [withTimeout, h]
  · simp [withTimeout]
    omega

/-- Witness for C2 at concrete behaviours. -/
theorem C2_withTimeout_contract_witness :
    withTimeout (PBeh.resolves 3 (7 : Nat)) 10 = some 7 ∧
    withTimeout (PBeh.resolves 20 (7 : Nat)) 10 = none ∧
    withTimeout (PBeh.rejects 5 : PBeh Nat) 10 = none ∧
    withTimeout (PBeh.hangs : PBeh Nat) 10 = none :=
  ⟨(C2_withTimeout_contract 10 3 7).1 (by decide),
   (C2_withTimeout_contract 10 20 7).2.1 (by decide),
   (C2_withTimeout_contract 10 5 7).2.2.1,
   (C2_withTimeout_contract 10 0 7).2.2.2⟩

/-- C9: `withTimeoutAll(ops, t)` preserves arity and order; when the batch
settles before the shared timer the entry for each operation is its resolved
value, or `null` for an operation that throws/rejects (`pbehCaught`); when
the timer fires first (the batch settles no earlier than the bound, or some
operation hangs) every entry is `null`. -/
theorem C9_withTimeoutAll_contract {α : Type} (ops : List (PBeh α)) (ms : Nat) :
    (withTimeoutAll ops ms).length = ops.length ∧
    (∀ T, batchTime ops = some T → T < ms →
      withTimeoutAll ops ms = ops.map pbehCaught) ∧
    (∀ T, batchTime ops = some T → ms ≤ T →
      ∀ r ∈ withTimeoutAll ops ms, r = none) ∧
    (batchTime ops = none → ∀ r ∈ withTimeoutAll ops ms, r = none) := by
  refine ⟨?_, ?_, ?_, ?_⟩
  · unfold withTimeoutAll
    split
    · split <;> simp
    · simp
  · intro T hT hlt
    simp [withTimeoutAll, hT, hlt]
  · intro T hT hge r hr
    simp only [withTimeoutAll, hT] at hr
    rw [if_neg (by omega)] at hr
    rcases List.mem_map.mp hr with ⟨op, _, h⟩
    exact h.symm
  · intro h0 r hr
    simp only [withTimeoutAll, h0] at hr
    rcases List.mem_map.mp hr with ⟨op, _, h⟩
    exact h.symm

/-- Witness for C9: a settled batch keeps order with `null` for the rejecting
operation; a hanging member nulls out the whole batch. -/
theorem C9_withTimeoutAll_contract_witness :
    withTimeoutAll [PBeh.resolves 3 (7 : Nat), PBeh.rejects 5] 10 =
      [some 7, none] ∧
    (∀ r ∈ withTimeoutAll [PBeh.resolves 3 (7 : Nat), PBeh.hangs] 10,
      r = none) :=
  ⟨by
    rw [(C9_withTimeoutAll_contract [PBeh.resolves 3 (7 : Nat), PBeh.rejects 5]
      10).2.1 5 rfl (by decide)]
    decide,
   (C9_withTimeoutAll_contract [PBeh.resolves 3 (7 : Nat), PBeh.hangs]
      10).2.2.2 rfl⟩

/-- C7: `formatMemorySize` renders an absent (falsy) value as `"Unknown"`, a
byte count of at least one binary gigabyte as the GiB value to two decimals
with the GB unit, and any other nonzero byte count as the MiB value to two
decimals with the MB unit, with the claim's three concrete cases. -/
theorem C7_formatMemorySize (bytes : Option ℚ) :
    (bytes = none → DeviceUtils.formatMemorySize bytes = "Unknown") ∧
    (∀ x, bytes = some x → BYTES_PER_GB ≤ x →
      DeviceUtils.formatMemorySize bytes = toFixed2 (x / BYTES_PER_GB) ++ " GB") ∧
    (∀ x, bytes = some x → x ≠ 0 → x < BYTES_PER_GB →
      DeviceUtils.formatMemorySize bytes = toFixed2 (x / BYTES_PER_MB) ++ " MB") ∧
    DeviceUtils.formatMemorySize (some 1073741824) = "1.00 GB" ∧
    DeviceUtils.formatMemorySize (some 536870912) = "512.00 MB" ∧
    DeviceUtils.formatMemorySize none = "Unknown" := by
  have hpos := BYTES_PER_GB_pos
  refine ⟨?_, ?_, ?_, ?_, ?_, rfl⟩
  · rintro rfl; rfl
  · rintro x rfl hge
    have hx0 : x ≠ 0 := by intro h; rw [h] at hge; linarith
    have h1 : (1 : ℚ) ≤ x / BYTES_PER_GB := (one_le_div hpos).mpr hge
    simp [DeviceUtils.formatMemorySize, qTruthy, hx0, h1]
  · rintro x rfl hx0 hlt
    have h1 : ¬ (1 : ℚ) ≤ x / BYTES_PER_GB := by
      rw [one_le_div hpos]; exact not_le.mpr hlt
    simp [DeviceUtils.formatMemorySize, qTruthy, hx0, h1]
  · have h0 : qTruthy (some (1073741824 : ℚ)) = true := by decide
    have h1 : ((1073741824 : ℚ)) / BYTES_PER_GB = 1 := by norm_num [BYTES_PER_GB]
    have h3 : ((1 : ℚ) * 100 + 1 / 2) = 201 / 2 := by norm_num
    have h4 : ⌊(201 : ℚ) / 2⌋ = 100 := by
      rw [Int.floor_eq_iff]
      norm_num
    have hneg : ¬ ((1 : ℚ) < 0) := by norm_num
    have ht : toFixed2 (1 : ℚ) = "1.00" := by
      simp only [toFixed2, toFixed2Aux]
      rw [if_neg hneg, h3, h4]
      decide
    have hle : (1 : ℚ) ≤ (1073741824 : ℚ) / BYTES_PER_GB := by rw [h1]
    simp only [DeviceUtils.formatMemorySize, h0, Option.getD, h1]
    simp [hle, ht]
  · have h0 : qTruthy (some (536870912 : ℚ)) = true := by decide
    have h1 : ¬ (1 : ℚ) ≤ (536870912 : ℚ) / BYTES_PER_GB := by
      norm_num [BYTES_PER_GB]
    have h2 : ((536870912 : ℚ)) / BYTES_PER_MB = 512 := by norm_num [BYTES_PER_MB]
    have h3 : ((512 : ℚ) * 100 + 1 / 2) = 102401 / 2 := by norm_num
    have h4 : ⌊(102401 : ℚ) / 2⌋ = 51200 := by
      rw [Int.floor_eq_iff]
      norm_num
    have hneg : ¬ ((512 : ℚ) < 0) := by norm_num
    have ht : toFixed2 (512 : ℚ) = "512.00" := by
      simp only [toFixed2, toFixed2Aux]
      rw [if_neg hneg, h3, h4]
      decide
    simp only [DeviceUtils.formatMemorySize, h0, Option.getD, h2]
    simp [h1, ht]

/-- Witness for C7 at concrete byte counts, with every hypothesis discharged
numerically. -/
theorem C7_formatMemorySize_witness :
    DeviceUtils.formatMemorySize none = "Unknown" ∧
    DeviceUtils.formatMemorySize (some (2 * BYTES_PER_GB)) =
      toFixed2 (2 * BYTES_PER_GB / BYTES_PER_GB) ++ " GB" ∧
    DeviceUtils.formatMemorySize (some 12345) =
      toFixed2 ((12345 : ℚ) / BYTES_PER_MB) ++ " MB" :=
  ⟨(C7_formatMemorySize none).1 rfl,
   (C7_formatMemorySize _).2.1 _ rfl (by norm_num [BYTES_PER_GB]),
   (C7_formatMemorySize _).2.2.1 12345 rfl (by norm_num)
     (by norm_num [BYTES_PER_GB])⟩

/-- C10: every classification function treats a zero numeric field like an
absent one: `formatMemorySize 0` is `"Unknown"`, `getDeviceTier` with zero
year class and zero memory is `mid`, and `meetsMinimumRequirements` produces
no insufficient-memory reason for zero memory (any positive threshold) and no
device-too-old reason for zero year class. -/
theorem C10_zero_is_absent :
    DeviceUtils.formatMemorySize (some 0) = "Unknown" ∧
    DeviceUtils.getDeviceTier (mkInfo (some 0) (some 0) true) = Tier.mid ∧
    (∀ (info : DeviceInfo) (minMemoryGB : ℚ), info.totalMemory = some 0 →
      0 < minMemoryGB →
      (DeviceUtils.meetsMinimumRequirements info minMemoryGB).reasons =
        DeviceUtils.simulatorBlock info ++ DeviceUtils.yearBlock info) ∧
    (∀ (info : DeviceInfo) (minMemoryGB : ℚ), info.deviceYearClass = some 0 →
      (DeviceUtils.meetsMinimumRequirements info minMemoryGB).reasons =
        DeviceUtils.simulatorBlock info ++
          DeviceUtils.memoryBlock info minMemoryGB) := by
  refine ⟨by decide, ?_, ?_, ?_⟩
  · simp [DeviceUtils.getDeviceTier, mkInfo, qTruthy]
  · intro info minMemoryGB hmem hpos
    have hq : qTruthy info.totalMemory = false := by rw [hmem]; decide
    simp [DeviceUtils.meetsMinimumRequirements, DeviceUtils.memoryBlock, hq]
  · intro info minMemoryGB hyear
    have hq : qTruthy info.deviceYearClass = false := by rw [hyear]; decide
    simp [DeviceUtils.meetsMinimumRequirements, DeviceUtils.yearBlock, hq]

/-- Witness for C10's quantified clauses at concrete snapshots. -/
theorem C10_zero_is_absent_witness :
    (DeviceUtils.meetsMinimumRequirements (mkInfo none (some 0) false) 2).reasons =
      DeviceUtils.simulatorBlock (mkInfo none (some 0) false) ++
        DeviceUtils.yearBlock (mkInfo none (some 0) false) ∧
    (DeviceUtils.meetsMinimumRequirements (mkInfo (some 0) none true) 1).reasons =
      DeviceUtils.simulatorBlock (mkInfo (some 0) none true) ++
        DeviceUtils.memoryBlock (mkInfo (some 0) none true) 1 :=
  ⟨C10_zero_is_absent.2.2.1 _ 2 rfl (by norm_num),
   C10_zero_is_absent.2.2.2 _ 1 rfl⟩

/-- C5: `getDeviceTier` buckets a truthy year class by the fixed year
thresholds regardless of memory, otherwise a truthy memory by the fixed
binary-gigabyte thresholds, otherwise defaults to `mid`; with the claim's
three concrete cases.  ("Known" is the code's truthiness test: present and
nonzero, the convention made explicit by C10.) -/
theorem C5_getDeviceTier (info : DeviceInfo) :
    (∀ y, info.deviceYearClass = some y → y ≠ 0 →
      DeviceUtils.getDeviceTier info =
        (if 2022 ≤ y then Tier.high else if 2019 ≤ y then Tier.mid
         else Tier.low)) ∧
    (qTruthy info.deviceYearClass = false →
      ∀ m, info.totalMemory = some m → m ≠ 0 →
      DeviceUtils.getDeviceTier info =
        (if 6 * BYTES_PER_GB ≤ m then Tier.high
         else if 3 * BYTES_PER_GB ≤ m then Tier.mid else Tier.low)) ∧
    (qTruthy info.deviceYearClass = false → qTruthy info.totalMemory = false →
      DeviceUtils.getDeviceTier info = Tier.mid) ∧
    DeviceUtils.getDeviceTier (mkInfo (some 2023) none true) = Tier.high ∧
    DeviceUtils.getDeviceTier (mkInfo none (some (2 * BYTES_PER_GB)) true) =
      Tier.low ∧
    DeviceUtils.getDeviceTier (mkInfo none none true) = Tier.mid := by
  refine ⟨?_, ?_, ?_, ?_, ?_, ?_⟩
  · intro y hy hy0
    have hqy : qTruthy (some y) = true := by simp [qTruthy, hy0]
    simp [DeviceUtils.getDeviceTier, hy, hqy]
  · intro hyq m hm hm0
    have hqm : qTruthy (some m) = true := by simp [qTruthy, hm0]
    have h6 : ((6 : ℚ) ≤ m / BYTES_PER_GB) ↔ 6 * BYTES_PER_GB ≤ m :=
      le_div_iff₀ BYTES_PER_GB_pos
    have h3 : ((3 : ℚ) ≤ m / BYTES_PER_GB) ↔ 3 * BYTES_PER_GB ≤ m :=
      le_div_iff₀ BYTES_PER_GB_pos
    simp [DeviceUtils.getDeviceTier, hyq, hm, hqm, h6, h3]
  · intro hyq hmq
    simp [DeviceUtils.getDeviceTier, hyq, hmq]
  · simp only [DeviceUtils.getDeviceTier, mkInfo, qTruthy]
    norm_num
  · simp only [DeviceUtils.getDeviceTier, mkInfo, qTruthy]
    norm_num [BYTES_PER_GB]
  · simp [DeviceUtils.getDeviceTier, mkInfo, qTruthy]

/-- Witness for C5: the year clause at 2020 (mid, memory ignored) and the
memory clause at 7 binary gigabytes (high). -/
theorem C5_getDeviceTier_witness :
    DeviceUtils.getDeviceTier (mkInfo (some 2020) (some (7 * BYTES_PER_GB)) true) =
      Tier.mid ∧
    DeviceUtils.getDeviceTier (mkInfo none (some (7 * BYTES_PER_GB)) true) =
      Tier.high :=
  ⟨by
    rw [(C5_getDeviceTier _).1 2020 rfl (by norm_num)]
    norm_num,
   by
    rw [(C5_getDeviceTier (mkInfo none (some (7 * BYTES_PER_GB)) true)).2.1
      (by decide) (7 * BYTES_PER_GB) rfl (by norm_num [BYTES_PER_GB])]
    norm_num [BYTES_PER_GB]⟩

/-- C6: `meetsMinimumRequirements` returns `meets = true` exactly when the
reason list is empty, accumulates exactly one reason per failed check (not a
physical device; truthy memory below the threshold; truthy year class before
2018), and the claim's concrete snapshot at threshold 2 fails with exactly
three reasons. -/
theorem C6_meetsMinimumRequirements (info : DeviceInfo) (minMemoryGB : ℚ) :
    ((DeviceUtils.meetsMinimumRequirements info minMemoryGB).meets = true ↔
      (DeviceUtils.meetsMinimumRequirements info minMemoryGB).reasons = []) ∧
    (DeviceUtils.meetsMinimumRequirements info minMemoryGB).reasons.length =
      ((if info.isDevice then 0 else 1) +
       (if qTruthy info.totalMemory = true ∧
          info.totalMemory.getD 0 < minMemoryGB * BYTES_PER_GB then 1 else 0) +
       (if qTruthy info.deviceYearClass = true ∧
          info.deviceYearClass.getD 0 < 2018 then 1 else 0)) ∧
    (DeviceUtils.meetsMinimumRequirements
      (mkInfo (some 2016) (some BYTES_PER_GB) false) 2).meets = false ∧
    (DeviceUtils.meetsMinimumRequirements
      (mkInfo (some 2016) (some BYTES_PER_GB) false) 2).reasons.length = 3 := by
  have hm1 : (BYTES_PER_GB : ℚ) / BYTES_PER_GB = 1 := by norm_num [BYTES_PER_GB]
  refine ⟨?_, ?_, ?_, ?_⟩
  · unfold DeviceUtils.meetsMinimumRequirements
    simp [List.length_eq_zero]
  · have hsim : (DeviceUtils.simulatorBlock info).length =
        (if info.isDevice then 0 else 1) := by
      unfold DeviceUtils.simulatorBlock
      split <;> rfl
    have hmem : (DeviceUtils.memoryBlock info minMemoryGB).length =
        (if qTruthy info.totalMemory = true ∧
          info.totalMemory.getD 0 < minMemoryGB * BYTES_PER_GB then 1 else 0) := by
      unfold DeviceUtils.memoryBlock
      by_cases h1 : qTruthy info.totalMemory = true
      · rw [if_pos h1]
        have hd : (info.totalMemory.getD 0 / BYTES_PER_GB < minMemoryGB) ↔
            info.totalMemory.getD 0 < minMemoryGB * BYTES_PER_GB :=
          div_lt_iff₀ BYTES_PER_GB_pos
        by_cases h2 : info.totalMemory.getD 0 < minMemoryGB * BYTES_PER_GB
        · rw [if_pos (hd.mpr h2), if_pos ⟨h1, h2⟩]
          rfl
        · rw [if_neg (fun hh => h2 (hd.mp hh)), if_neg (fun hh => h2 hh.2)]
          rfl
      · rw [if_neg h1, if_neg (fun hh => h1 hh.1)]
        rfl
    have hyear : (DeviceUtils.yearBlock info).length =
        (if qTruthy info.deviceYearClass = true ∧
          info.deviceYearClass.getD 0 < 2018 then 1 else 0) := by
      unfold DeviceUtils.yearBlock
      by_cases h : qTruthy info.deviceYearClass = true ∧
          info.deviceYearClass.getD 0 < 2018
      · rw [if_pos h, if_pos h]
        rfl
      · rw [if_neg h, if_neg h]
        rfl
    simp only [DeviceUtils.meetsMinimumRequirements, List.length_append,
      hsim, hmem, hyear]
  · simp only [DeviceUtils.meetsMinimumRequirements, DeviceUtils.simulatorBlock,
      DeviceUtils.memoryBlock, DeviceUtils.yearBlock, mkInfo, qTruthy,
      Option.getD, hm1]
    norm_num [BYTES_PER_GB]
  · simp only [DeviceUtils.meetsMinimumRequirements, DeviceUtils.simulatorBlock,
      DeviceUtils.memoryBlock, DeviceUtils.yearBlock, mkInfo, qTruthy,
      Option.getD, hm1]
    norm_num [BYTES_PER_GB]

/-- C8: `getOfflineUserId(fallbackId)` returns null on web regardless of the
argument; on the identifier-capable platforms it returns the resolved
identifier prefixed with the fixed literal `offline_` when `getDeviceId`
yields a non-empty identifier, and otherwise the caller-supplied fallback
(whose source default is the literal `offline_user`). -/
theorem C8_getOfflineUserId (env : Env) (fallbackId : String) :
    (env.platformOS = .web →
      DeviceService.getOfflineUserId env fallbackId = none) ∧
    (env.platformOS ≠ .web →
      (∀ s, DeviceIdService.getDeviceId env = some s → s ≠ "" →
        DeviceService.getOfflineUserId env fallbackId =
          some ("offline_" ++ s)) ∧
      (DeviceIdService.getDeviceId env = none →
        DeviceService.getOfflineUserId env fallbackId = some fallbackId)) ∧
    offlineUserFallback = "offline_user" := by
  refine ⟨?_, ?_, rfl⟩
  · intro hweb
    simp [DeviceService.getOfflineUserId, DeviceIdService.getOfflineUserId, hweb]
  · intro hweb
    constructor
    · intro s hs hs0
      simp [DeviceService.getOfflineUserId, DeviceIdService.getOfflineUserId,
        hweb, hs, hs0]
    · intro hs
      simp [DeviceService.getOfflineUserId, DeviceIdService.getOfflineUserId,
        hweb, hs]

/-- Environments for the witnesses: iOS with a resolving vendor identifier,
iOS with a hanging identifier provider, and the plain web baseline. -/
def envIosId : Env :=
  { baseEnv with
    platformOS := .ios
    getIosIdForVendorAsync := .resolves 5 "device-xyzABC" }

/-- iOS environment whose identifier provider hangs. -/
def envIosNoId : Env :=
  { baseEnv with platformOS := .ios }

/-- Witness for C8: web yields null, a resolved identifier gets the
`offline_` tag, a hanging identifier provider falls back. -/
theorem C8_getOfflineUserId_witness :
    DeviceService.getOfflineUserId baseEnv "fb" = none ∧
    DeviceService.getOfflineUserId envIosId "fb" =
      some ("offline_" ++ "device-xyzABC") ∧
    DeviceService.getOfflineUserId envIosNoId "fb" = some "fb" :=
  ⟨(C8_getOfflineUserId baseEnv "fb").1 rfl,
   ((C8_getOfflineUserId envIosId "fb").2.1 (by decide)).1 "device-xyzABC"
     (by decide) (by decide),
   ((C8_getOfflineUserId envIosNoId "fb").2.1 (by decide)).2 (by decide)⟩

/-- The snapshot is fully populated with fresh provider values: every
synchronous accessor returned an actual value that the snapshot carries, the
memory call resolved within its bound, and the platform tag is the runtime
platform. -/
def FullyFresh (env : Env) (d : DeviceInfo) : Prop :=
  (∃ v, env.brand = SBeh.val (some v) ∧ d.brand = some v) ∧
  (∃ v, env.manufacturer = SBeh.val (some v) ∧ d.manufacturer = some v) ∧
  (∃ v, env.modelName = SBeh.val (some v) ∧ d.modelName = some v) ∧
  (∃ v, env.modelId = SBeh.val (some v) ∧ d.modelId = some v) ∧
  (∃ v, env.deviceName = SBeh.val (some v) ∧ d.deviceName = some v) ∧
  (∃ v, env.deviceYearClass = SBeh.val (some v) ∧ d.deviceYearClass = some v) ∧
  (∃ v, env.deviceType = SBeh.val (some v) ∧ d.deviceType = some v) ∧
  (∃ v, env.isDevice = SBeh.val (some v) ∧ d.isDevice = v) ∧
  (∃ v, env.osName = SBeh.val (some v) ∧ d.osName = some v) ∧
  (∃ v, env.osVersion = SBeh.val (some v) ∧ d.osVersion = some v) ∧
  (∃ v, env.osBuildId = SBeh.val (some v) ∧ d.osBuildId = some v) ∧
  (∃ v, env.platformApiLevel = SBeh.val (some v) ∧ d.platformApiLevel = some v) ∧
  (∃ m, withTimeout env.getMaxMemoryAsync 1000 = some m ∧ d.totalMemory = some m) ∧
  d.platform = env.platformOS

/-- Every synchronous provider access returns an actual value and the memory
call resolves within its bound. -/
def AllAccessesSucceed (env : Env) : Prop :=
  (∃ v, env.brand = SBeh.val (some v)) ∧
  (∃ v, env.manufacturer = SBeh.val (some v)) ∧
  (∃ v, env.modelName = SBeh.val (some v)) ∧
  (∃ v, env.modelId = SBeh.val (some v)) ∧
  (∃ v, env.deviceName = SBeh.val (some v)) ∧
  (∃ v, env.deviceYearClass = SBeh.val (some v)) ∧
  (∃ v, env.deviceType = SBeh.val (some v)) ∧
  (∃ v, env.isDevice = SBeh.val (some v)) ∧
  (∃ v, env.osName = SBeh.val (some v)) ∧
  (∃ v, env.osVersion = SBeh.val (some v)) ∧
  (∃ v, env.osBuildId = SBeh.val (some v)) ∧
  (∃ v, env.platformApiLevel = SBeh.val (some v)) ∧
  (∃ m, withTimeout env.getMaxMemoryAsync 1000 = some m)

/-- An environment where the physical-device flag reads fresh (`true`) while
the brand accessor throws: the snapshot mixes a fresh value with a per-field
default. -/
def envMixed : Env :=
  { baseEnv with
    platformOS := .ios
    isDevice := SBeh.val (some true) }

lemma safeAccessN_none_or_val {α : Type} (b : SBeh α) :
    safeAccessN b = none ∨ b = SBeh.val (safeAccessN b) := by
  cases b with
  | val v => exact Or.inr rfl
  | throws => exact Or.inl rfl

lemma safeAccessD_false_or_true (b : SBeh Bool) :
    safeAccessD b false = false ∨
      b = SBeh.val (some true) ∧ safeAccessD b false = true := by
  cases b with
  | val v =>
    cases v with
    | none => exact Or.inl rfl
    | some x =>
      cases x
      · exact Or.inl rfl
      · exact Or.inr ⟨rfl, rfl⟩
  | throws => exact Or.inl rfl

lemma withTimeout_none_or_resolves {α : Type} (b : PBeh α) (ms : Nat) :
    withTimeout b ms = none ∨
      ∃ t v, b = PBeh.resolves t v ∧ t < ms ∧ withTimeout b ms = some v := by
  cases b with
  | resolves t v =>
    by_cases h : t < ms
    · exact Or.inr ⟨t, v, rfl, h, by simp [withTimeout, h]⟩
    · exact Or.inl (by simp [withTimeout, h])
  | rejects t => exact Or.inl rfl
  | hangs => exact Or.inl rfl

/-- C3 counterexample: with a throwing brand accessor and a fresh `true`
physical-device flag, `getDeviceInfo` returns a snapshot that is neither the
all-defaults record nor fully populated with fresh provider values — the
all-or-nothing invariant the claim states fails. -/
theorem C3_counterexample :
    ¬ (DeviceInfoService.getDeviceInfo envMixed =
        DeviceInfoService.getMinimalDeviceInfo envMixed.platformOS ∨
      FullyFresh envMixed (DeviceInfoService.getDeviceInfo envMixed)) := by
  intro h
  rcases h with h | h
  · have hb := congrArg DeviceInfo.isDevice h
    simp [DeviceInfoService.getDeviceInfo, DeviceInfoService.getMinimalDeviceInfo,
      envMixed, baseEnv, safeAccessD] at hb
  · rcases h with ⟨⟨v, hv, _⟩, _⟩
    simp [envMixed, baseEnv] at hv

/-- C3 (amended): `getDeviceInfo` degrades per field, not atomically.  When
every provider access succeeds the snapshot is fully populated with fresh
values; in general the platform tag always equals the runtime platform and
every other field independently carries either the fresh provider value or
that field's default (`null`, `false` for `isDevice`, `null` for a memory
call that rejected, hung or missed its bound). -/
theorem C3_per_field_degradation (env : Env) :
    (AllAccessesSucceed env →
      FullyFresh env (DeviceInfoService.getDeviceInfo env)) ∧
    (DeviceInfoService.getDeviceInfo env).platform = env.platformOS ∧
    ((DeviceInfoService.getDeviceInfo env).brand = none ∨
      env.brand = SBeh.val (DeviceInfoService.getDeviceInfo env).brand) ∧
    ((DeviceInfoService.getDeviceInfo env).manufacturer = none ∨
      env.manufacturer = SBeh.val (DeviceInfoService.getDeviceInfo env).manufacturer) ∧
    ((DeviceInfoService.getDeviceInfo env).modelName = none ∨
      env.modelName = SBeh.val (DeviceInfoService.getDeviceInfo env).modelName) ∧
    ((DeviceInfoService.getDeviceInfo env).modelId = none ∨
      env.modelId = SBeh.val (DeviceInfoService.getDeviceInfo env).modelId) ∧
    ((DeviceInfoService.getDeviceInfo env).deviceName = none ∨
      env.deviceName = SBeh.val (DeviceInfoService.getDeviceInfo env).deviceName) ∧
    ((DeviceInfoService.getDeviceInfo env).deviceYearClass = none ∨
      env.deviceYearClass = SBeh.val (DeviceInfoService.getDeviceInfo env).deviceYearClass) ∧
    ((DeviceInfoService.getDeviceInfo env).deviceType = none ∨
      env.deviceType = SBeh.val (DeviceInfoService.getDeviceInfo env).deviceType) ∧
    ((DeviceInfoService.getDeviceInfo env).isDevice = false ∨
      env.isDevice = SBeh.val (some true) ∧
        (DeviceInfoService.getDeviceInfo env).isDevice = true) ∧
    ((DeviceInfoService.getDeviceInfo env).osName = none ∨
      env.osName = SBeh.val (DeviceInfoService.getDeviceInfo env).osName) ∧
    ((DeviceInfoService.getDeviceInfo env).osVersion = none ∨
      env.osVersion = SBeh.val (DeviceInfoService.getDeviceInfo env).osVersion) ∧
    ((DeviceInfoService.getDeviceInfo env).osBuildId = none ∨
      env.osBuildId = SBeh.val (DeviceInfoService.getDeviceInfo env).osBuildId) ∧
    ((DeviceInfoService.getDeviceInfo env).platformApiLevel = none ∨
      env.platformApiLevel = SBeh.val (DeviceInfoService.getDeviceInfo env).platformApiLevel) ∧
    ((DeviceInfoService.getDeviceInfo env).totalMemory = none ∨
      ∃ t v, env.getMaxMemoryAsync = PBeh.resolves t v ∧ t < 1000 ∧
        (DeviceInfoService.getDeviceInfo env).totalMemory = some v) := by
  refine ⟨?_, rfl, safeAccessN_none_or_val env.brand,
    safeAccessN_none_or_val env.manufacturer,
    safeAccessN_none_or_val env.modelName,
    safeAccessN_none_or_val env.modelId,
    safeAccessN_none_or_val env.deviceName,
    safeAccessN_none_or_val env.deviceYearClass,
    safeAccessN_none_or_val env.deviceType,
    safeAccessD_false_or_true env.isDevice,
    safeAccessN_none_or_val env.osName,
    safeAccessN_none_or_val env.osVersion,
    safeAccessN_none_or_val env.osBuildId,
    safeAccessN_none_or_val env.platformApiLevel,
    withTimeout_none_or_resolves env.getMaxMemoryAsync 1000⟩
  rintro ⟨⟨b, hb⟩, ⟨mf, hmf⟩, ⟨mn, hmn⟩, ⟨mi, hmi⟩, ⟨dn, hdn⟩, ⟨yc, hyc⟩,
    ⟨dt, hdt⟩, ⟨idv, hidv⟩, ⟨osn, hosn⟩, ⟨osv, hosv⟩, ⟨osb, hosb⟩,
    ⟨al, hal⟩, ⟨m, hm⟩⟩
  refine ⟨⟨b, hb, ?_⟩, ⟨mf, hmf, ?_⟩, ⟨mn, hmn, ?_⟩, ⟨mi, hmi, ?_⟩,
    ⟨dn, hdn, ?_⟩, ⟨yc, hyc, ?_⟩, ⟨dt, hdt, ?_⟩, ⟨idv, hidv, ?_⟩,
    ⟨osn, hosn, ?_⟩, ⟨osv, hosv, ?_⟩, ⟨osb, hosb, ?_⟩, ⟨al, hal, ?_⟩,
    ⟨m, hm, hm⟩, rfl⟩
  · show safeAccessN env.brand = some b
    rw [hb]
    rfl
  · show safeAccessN env.manufacturer = some mf
    rw [hmf]
    rfl
  · show safeAccessN env.modelName = some mn
    rw [hmn]
    rfl
  · show safeAccessN env.modelId = some mi
    rw [hmi]
    rfl
  · show safeAccessN env.deviceName = some dn
    rw [hdn]
    rfl
  · show safeAccessN env.deviceYearClass = some yc
    rw [hyc]
    rfl
  · show safeAccessN env.deviceType = some dt
    rw [hdt]
    rfl
  · show safeAccessD env.isDevice false = idv
    rw [hidv]
    rfl
  · show safeAccessN env.osName = some osn
    rw [hosn]
    rfl
  · show safeAccessN env.osVersion = some osv
    rw [hosv]
    rfl
  · show safeAccessN env.osBuildId = some osb
    rw [hosb]
    rfl
  · show safeAccessN env.platformApiLevel = some al
    rw [hal]
    rfl

/-- A fully healthy environment: every accessor returns a value, every
asynchronous call resolves well inside its bound. -/
def envFresh : Env :=
  { platformOS := .android
    getMaxMemoryAsync := .resolves 10 4294967296
    brand := .val (some "Google")
    manufacturer := .val (some "Google")
    modelName := .val (some "Pixel 7")
    modelId := .val (some "GVU6C")
    deviceName := .val (some "Pixel")
    deviceYearClass := .val (some 2022)
    deviceType := .val (some 1)
    isDevice := .val (some true)
    osName := .val (some "Android")
    osVersion := .val (some "14")
    osBuildId := .val (some "UD1A")
    platformApiLevel := .val (some 34)
    applicationName := .val (some "App")
    applicationId := .val (some "com.example.app")
    nativeApplicationVersion := .val (some "1.0")
    nativeBuildVersion := .val (some "100")
    getInstallationTimeAsync := .resolves 1 1700000000
    getLastUpdateTimeAsync := .resolves 1 1700000001
    getAndroidId := .resolves 2 "abcdef123456"
    getIosIdForVendorAsync := .hangs
    randomToken := "R4ND0M"
    now := 1700000460 }

/-- Witness for C3 (amended): a fully healthy environment yields a fully
fresh snapshot, and the platform tag is the runtime platform. -/
theorem C3_per_field_degradation_witness :
    FullyFresh envFresh (DeviceInfoService.getDeviceInfo envFresh) ∧
    (DeviceInfoService.getDeviceInfo envFresh).platform = Platform.android :=
  ⟨(C3_per_field_degradation envFresh).1
    ⟨⟨"Google", rfl⟩, ⟨"Google", rfl⟩, ⟨"Pixel 7", rfl⟩, ⟨"GVU6C", rfl⟩,
     ⟨"Pixel", rfl⟩, ⟨2022, rfl⟩, ⟨1, rfl⟩, ⟨true, rfl⟩, ⟨"Android", rfl⟩,
     ⟨"14", rfl⟩, ⟨"UD1A", rfl⟩, ⟨34, rfl⟩, ⟨4294967296, rfl⟩⟩,
   (C3_per_field_degradation envFresh).2.1⟩

/-- The regular expression `^iPhone13Pro-[A-Z0-9]\x7b6\x7d$` as a decidable
check. -/
def friendlyIdPattern (r : String) : Bool :=
  (r.take 12 == "iPhone13Pro-") && (r.length == 18) &&
    (r.drop 12).toList.all (fun c => c.isUpper || c.isDigit)

/-- On a non-web platform, when the snapshot carries a truthy model or device
name, the friendly id is the cleaned first truthy name, a hyphen, and the
extracted id part: the `withTimeoutAll` batch always settles inside the
2000 ms bound because both sub-operations are themselves bounded by
1000 ms. -/
lemma getUserFriendlyId_success (env : Env)
    (hweb : ¬ env.platformOS = .web)
    (hmn : (strTruthy (DeviceInfoService.getDeviceInfo env).modelName ||
        strTruthy (DeviceInfoService.getDeviceInfo env).deviceName) = true) :
    UserFriendlyIdService.getUserFriendlyId env =
      cleanModelName (jsOrS (DeviceInfoService.getDeviceInfo env).modelName
          (jsOrS (DeviceInfoService.getDeviceInfo env).deviceName (some "Device")))
        ++ "-" ++ extractIdPart (DeviceIdService.getDeviceId env) 6 env.randomToken := by
  have ht1 : DeviceInfoService.completionTime env < 2000 :=
    lt_of_le_of_lt (withTimeoutRT_le _ _) (by omega)
  have ht2 : DeviceIdService.completionTime env < 2000 :=
    lt_of_le_of_lt (deviceIdService_completionTime_le env) (by omega)
  unfold UserFriendlyIdService.getUserFriendlyId
  rw [if_neg hweb, withTimeoutAll_pair _ _ _ _ 2000 ht1 ht2]
  simp only [List.get?]
  rw [if_pos hmn]

/-- C4: on a non-web platform with snapshot model name `"iPhone 13 Pro!"`
and a resolved identifier ending in `"xyzABC"`, `getUserFriendlyId` strips
the non-alphanumeric characters from the model name and appends a hyphen and
the uppercased last six characters of the identifier, yielding
`"iPhone13Pro-XYZABC"`, which matches `^iPhone13Pro-[A-Z0-9]\x7b6\x7d$`. -/
theorem C4_userFriendlyId (env : Env) (s : String) :
    env.platformOS ≠ .web →
    env.modelName = SBeh.val (some "iPhone 13 Pro!") →
    DeviceIdService.getDeviceId env = some s →
    s.drop (s.length - 6) = "xyzABC" →
    UserFriendlyIdService.getUserFriendlyId env = "iPhone13Pro-XYZABC" ∧
    friendlyIdPattern (UserFriendlyIdService.getUserFriendlyId env) = true := by
  intro hweb hmodel hid hdrop
  have hs0 : s ≠ "" := getDeviceId_ne_empty env s hid
  have hdm : (DeviceInfoService.getDeviceInfo env).modelName =
      some "iPhone 13 Pro!" := by
    show safeAccessN env.modelName = some "iPhone 13 Pro!"
    rw [hmodel]
    rfl
  have hmn : (strTruthy (DeviceInfoService.getDeviceInfo env).modelName ||
      strTruthy (DeviceInfoService.getDeviceInfo env).deviceName) = true := by
    rw [hdm]
    have hst : strTruthy (some "iPhone 13 Pro!") = true := by decide
    rw [hst]
    rfl
  have hmain : UserFriendlyIdService.getUserFriendlyId env =
      "iPhone13Pro-XYZABC" := by
    rw [getUserFriendlyId_success env hweb hmn, hdm, hid]
    have hjs : jsOrS (some "iPhone 13 Pro!")
        (jsOrS (DeviceInfoService.getDeviceInfo env).deviceName (some "Device")) =
        some "iPhone 13 Pro!" := by
      show (if ("iPhone 13 Pro!" : String) = "" then
          jsOrS (DeviceInfoService.getDeviceInfo env).deviceName (some "Device")
        else some "iPhone 13 Pro!") = some "iPhone 13 Pro!"
      rw [if_neg (by decide)]
    rw [hjs]
    have hex : extractIdPart (some s) 6 env.randomToken = "XYZABC" := by
      show (if s = "" then env.randomToken
        else toUpperCase (s.drop (s.length - 6))) = "XYZABC"
      rw [if_neg hs0, hdrop]
      decide
    rw [hex]
    decide
  exact ⟨hmain, by rw [hmain]; decide⟩

/-- Environment realising C4's scenario. -/
def envC4 : Env :=
  { baseEnv with
    platformOS := .ios
    modelName := .val (some "iPhone 13 Pro!")
    getIosIdForVendorAsync := .resolves 5 "device-xyzABC" }

/-- Witness for C4 at a concrete iOS environment. -/
theorem C4_userFriendlyId_witness :
    UserFriendlyIdService.getUserFriendlyId envC4 = "iPhone13Pro-XYZABC" ∧
    friendlyIdPattern (UserFriendlyIdService.getUserFriendlyId envC4) = true :=
  C4_userFriendlyId envC4 "device-xyzABC" (by decide) rfl (by decide) (by decide)

lemma strOrDefault_ne_empty (a d : String) (hd : d ≠ "") :
    strOrDefault a d ≠ "" := by
  unfold strOrDefault
  split
  · exact hd
  · assumption

lemma getUserFriendlyId_ne_empty (env : Env) :
    UserFriendlyIdService.getUserFriendlyId env ≠ "" := by
  unfold UserFriendlyIdService.getUserFriendlyId
  by_cases hweb : env.platformOS = .web
  · rw [if_pos hweb]
    exact webUser_ne_empty _
  · have ht1 : DeviceInfoService.completionTime env < 2000 :=
      lt_of_le_of_lt (withTimeoutRT_le _ _) (by omega)
    have ht2 : DeviceIdService.completionTime env < 2000 :=
      lt_of_le_of_lt (deviceIdService_completionTime_le env) (by omega)
    rw [if_neg hweb, withTimeoutAll_pair _ _ _ _ 2000 ht1 ht2]
    simp only [List.get?]
    split
    · exact append_dash_ne_empty _ _
    · show platformDisplayTag env.platformOS ++ "-" ++ env.randomToken ≠ ""
      exact append_dash_ne_empty _ _

/-- C1: under every provider behaviour (values, nulls, synchronous throws,
rejections, hangs — every inhabitant of `Env`), each public facade operation
is a total function into its declared result type (the embedding of "never
propagates an exception"), and the results are well-formed: the snapshot is
tagged with the runtime platform, the application names fall back to a
non-empty sentinel, identifier-shaped results are null or non-empty (always
null on web), the friendly id is never empty, and the derived capability set
is consistent with the snapshot. -/
theorem C1_facade_safety (env : Env) (fallbackId : String)
    (userId : Option String) :
    (DeviceService.getDeviceInfo env).platform = env.platformOS ∧
    (DeviceService.getApplicationInfo env).applicationName ≠ "" ∧
    (DeviceService.getApplicationInfo env).applicationId ≠ "" ∧
    (DeviceService.getSystemInfo env userId).timestamp = env.now ∧
    (DeviceService.getSystemInfo env userId).device =
      DeviceService.getDeviceInfo env ∧
    (DeviceService.getSystemInfo env userId).application =
      DeviceService.getApplicationInfo env ∧
    (∀ s, DeviceService.getDeviceId env = some s → s ≠ "") ∧
    (env.platformOS = .web → DeviceService.getDeviceId env = none) ∧
    (env.platformOS = .web →
      DeviceService.getOfflineUserId env fallbackId = none) ∧
    (env.platformOS ≠ .web →
      ∃ s, DeviceService.getOfflineUserId env fallbackId = some s) ∧
    DeviceService.getUserFriendlyId env ≠ "" ∧
    (env.platformOS ≠ .ios → DeviceService.hasNotch env = false) ∧
    (DeviceService.getDeviceCapabilities env).isDevice =
      (DeviceService.getDeviceInfo env).isDevice ∧
    ((DeviceService.getDeviceCapabilities env).totalMemoryGB = none ∨
      ∃ m, (DeviceService.getDeviceInfo env).totalMemory = some m ∧
        (DeviceService.getDeviceCapabilities env).totalMemoryGB =
          some (m / BYTES_PER_GB)) := by
  refine ⟨rfl, strOrDefault_ne_empty _ _ (by decide),
    strOrDefault_ne_empty _ _ (by decide), rfl, rfl, rfl,
    fun s hs => getDeviceId_ne_empty env s hs, ?_, ?_, ?_,
    getUserFriendlyId_ne_empty env, ?_, rfl, ?_⟩
  · intro h
    simp [DeviceService.getDeviceId, DeviceIdService.getDeviceId, h]
  · intro h
    simp [DeviceService.getOfflineUserId, DeviceIdService.getOfflineUserId, h]
  · intro h
    unfold DeviceService.getOfflineUserId DeviceIdService.getOfflineUserId
    rw [if_neg h]
    rcases hd : DeviceIdService.getDeviceId env with _ | d
    · exact ⟨fallbackId, rfl⟩
    · by_cases hd0 : d = ""
      · refine ⟨fallbackId, ?_⟩
        show (if d = "" then some fallbackId else some ("offline_" ++ d)) =
          some fallbackId
        rw [if_pos hd0]
      · refine ⟨"offline_" ++ d, ?_⟩
        show (if d = "" then some fallbackId else some ("offline_" ++ d)) =
          some ("offline_" ++ d)
        rw [if_neg hd0]
  · intro h
    unfold DeviceService.hasNotch DeviceCapabilityService.hasNotch
    rw [if_pos h]
  · have hcap : (DeviceService.getDeviceCapabilities env).totalMemoryGB =
        (if qTruthy (DeviceInfoService.getDeviceInfo env).totalMemory then
          some ((DeviceInfoService.getDeviceInfo env).totalMemory.getD 0 /
            BYTES_PER_GB)
        else none) := rfl
    rcases hmem : (DeviceInfoService.getDeviceInfo env).totalMemory with _ | m
    · rw [hmem] at hcap
      left
      simpa [qTruthy] using hcap
    · by_cases hm0 : m = 0
      · rw [hmem, hm0] at hcap
        left
        simpa [qTruthy] using hcap
      · right
        refine ⟨m, hmem, ?_⟩
        rw [hmem] at hcap
        simpa [qTruthy, hm0] using hcap

/-- Witness for C1 at concrete environments: a healthy android one and the
fully adversarial web baseline. -/
theorem C1_facade_safety_witness :
    (DeviceService.getDeviceInfo envFresh).platform = Platform.android ∧
    DeviceService.getUserFriendlyId envFresh ≠ "" ∧
    DeviceService.getOfflineUserId baseEnv "fb2" = none :=
  ⟨(C1_facade_safety envFresh "fb" none).1,
   (C1_facade_safety envFresh "fb" none).2.2.2.2.2.2.2.2.2.2.1,
   (C1_facade_safety baseEnv "fb2" none).2.2.2.2.2.2.2.2.1 rfl⟩

/-- Witness for C6 at a concrete snapshot and threshold. -/
theorem C6_meetsMinimumRequirements_witness :
    ((DeviceUtils.meetsMinimumRequirements (mkInfo none none true) 1).meets = true ↔
      (DeviceUtils.meetsMinimumRequirements (mkInfo none none true) 1).reasons = []) ∧
    (DeviceUtils.meetsMinimumRequirements
      (mkInfo (some 2016) (some BYTES_PER_GB) false) 2).reasons.length = 3 :=
  ⟨(C6_meetsMinimumRequirements (mkInfo none none true) 1).1,
   (C6_meetsMinimumRequirements (mkInfo none none true) 1).2.2.2⟩
